import Mathlib

/-!
Verification of the Atlanta food-desert dashboard logic
(`atlanta_food_desert_gui_render.py`).

The numeric code of the source uses Python floats whose literals all have at
most two decimal digits; we model the arithmetic exactly over `ℚ`, so every
decimal literal of the source appears here as the rational it denotes
(`48.02` becomes `4802/100`, …).  Python's `int(…)` conversion truncates
toward zero; it is modelled by `pyInt`.  A Python expression that raises an
exception (`max`/`min` of an empty list, a missing dictionary key) is
modelled by `Option`, with `none` for the raising outcome.
-/

/-- Truncation toward zero of a rational, the behaviour of Python `int(q)`. -/
def pyInt (q : ℚ) : Int := if q < 0 then ⌈q⌉ else ⌊q⌋

/-- One value of the hard-coded `metrics_lookup` dictionary:
`{'time': …, 'tracts': …, 'hunv': …}`. -/
structure MetricEntry where
  time : ℚ
  tracts : Int
  hunv : Int
deriving DecidableEq, Repr

/-- The hard-coded `metrics_lookup` dictionary of `calculate_metrics`,
as the association list of its items, in source order. -/
def metrics_lookup : List (Int × MetricEntry) :=
  [(0, ⟨4802/100, 0, 0⟩),
   (1, ⟨4541/100, 2, 1220⟩),
   (2, ⟨4304/100, 4, 1890⟩),
   (5, ⟨3829/100, 11, 4427⟩),
   (10, ⟨3386/100, 21, 7266⟩),
   (15, ⟨3031/100, 31, 9273⟩),
   (20, ⟨2787/100, 38, 11072⟩),
   (30, ⟨2514/100, 49, 13349⟩),
   (40, ⟨2301/100, 57, 14232⟩),
   (50, ⟨2083/100, 57, 14232⟩),
   (57, ⟨20, 57, 14232⟩)]

/-- The source's `keys = sorted(metrics_lookup.keys())`.  The dictionary is
written in ascending key order (proved strictly ascending in
`metrics_lookup_invariant`), so `sorted` is the identity here and `keys` is
just the key list of `metrics_lookup`. -/
def keys : List Int := metrics_lookup.map (fun e => e.1)

/-- Association-list access: first value stored under the key, if any. -/
def dictGet? (p : Int) : List (Int × MetricEntry) → Option MetricEntry
  | [] => none
  | (k, v) :: rest => if k = p then some v else dictGet? p rest

/-- Dictionary access `metrics_lookup[p]`, `none` when the key is absent
(Python would raise `KeyError`; the source guards accesses by `p in
metrics_lookup` or uses keys obtained from the dictionary itself). -/
def lookup? (p : Int) : Option MetricEntry := dictGet? p metrics_lookup

/-- Total accessor used only in specification statements: the stored entry
of a key, defaulting to `⟨0, 0, 0⟩` off the table. -/
def entryD (k : Int) : MetricEntry := (lookup? k).getD ⟨0, 0, 0⟩

/-- The source's `ratio = (p - lower) / (upper - lower) if upper != lower
else 0`. -/
def ratio (p lower upper : Int) : ℚ :=
  if upper ≠ lower then ((p : ℚ) - (lower : ℚ)) / ((upper : ℚ) - (lower : ℚ)) else 0

/-- The entry-selection logic of `calculate_metrics`: the local `metrics`
value.  An exact table key returns the stored entry; otherwise
`lower = max([k for k in keys if k <= p])` and
`upper = min([k for k in keys if k >= p])` are found (an empty candidate
list makes Python's `max`/`min` raise, modelled by `none`) and the entry is
linearly interpolated, with `tracts` and `hunv` truncated by `int(…)`. -/
def metricsEntry (p : Int) : Option MetricEntry :=
  match lookup? p with
  | some e => some e
  | none =>
    match (keys.filter (fun k => decide (k ≤ p))).max?,
          (keys.filter (fun k => decide (p ≤ k))).min? with
    | some lower, some upper =>
      match lookup? lower, lookup? upper with
      | some lo, some hi =>
        some { time := lo.time + ratio p lower upper * (hi.time - lo.time),
               tracts := pyInt ((lo.tracts : ℚ) +
                 ratio p lower upper * ((hi.tracts : ℚ) - (lo.tracts : ℚ))),
               hunv := pyInt ((lo.hunv : ℚ) +
                 ratio p lower upper * ((hi.hunv : ℚ) - (lo.hunv : ℚ))) }
      | _, _ => none
    | _, _ => none

/-- The record returned by `calculate_metrics`. -/
structure Metrics where
  weighted_avg_time : ℚ
  tracts_served : Int
  hunv_served : Int
  improvement : ℚ
  improvement_pct : ℚ
  total_tracts : Nat
  total_hunv : Int
  baseline_time : ℚ
deriving DecidableEq, Repr

/-- The source's `baseline_time = 48.02`. -/
def baseline_time : ℚ := 4802/100

/-- The source's `calculate_metrics(p)`.  `numDemand` models
`len(df_demand)` and `hunvSum` models `df_demand['weight'].sum()`, the two
quantities taken from the loaded demand table. -/
def calculate_metrics (p : Int) (numDemand : Nat) (hunvSum : ℚ) : Option Metrics :=
  (metricsEntry p).map (fun e =>
    let improvement : ℚ := baseline_time - e.time
    { weighted_avg_time := e.time
      tracts_served := e.tracts
      hunv_served := e.hunv
      improvement := improvement
      improvement_pct := improvement / baseline_time * 100
      total_tracts := numDemand
      total_hunv := pyInt hunvSum
      baseline_time := baseline_time })

/-- The source's `simulate_greedy_selection(max_p=57)`.  `candidates` is the
`facility_id` column of `df_candidates` (row `i` holds the id of candidate
`i`); `sample` models the index list drawn by
`df_candidates.sample(n=min(max_p, len(df_candidates)))` — the pseudo-random
draw itself (NumPy's seeded generator) is kept abstract, constrained by
`validSample` to what sampling without replacement guarantees.  The function
returns `[df_candidates.loc[idx, 'facility_id'] for idx in
selected_order[:max_p]]`. -/
def simulate_greedy_selection (candidates : List Nat) (sample : List Nat)
    (max_p : Nat) : List Nat :=
  (sample.take max_p).map (fun i => candidates.getD i 0)

/-- What `df.sample(n=min(max_p, len(df)))` guarantees about the drawn index
list: distinct valid row indices, exactly `min max_p (number of rows)` of
them. -/
def validSample (candidates sample : List Nat) (max_p : Nat) : Prop :=
  sample.Nodup ∧ (∀ i ∈ sample, i < candidates.length) ∧
    sample.length = min max_p candidates.length

instance (candidates sample : List Nat) (max_p : Nat) :
    Decidable (validSample candidates sample max_p) :=
  inferInstanceAs (Decidable (sample.Nodup ∧ (∀ i ∈ sample, i < candidates.length) ∧
    sample.length = min max_p candidates.length))

/-- The source's `FACILITY_SELECTION_ORDER[:p]` (line 221): the first `p`
entries of a selection order.  Python slicing past the end is harmless, as is
`List.take`. -/
def selectedFor (order : List Nat) (p : Nat) : List Nat := order.take p

/-- A candidate facility row: its `facility_id`, latitude and longitude. -/
structure Fac where
  fid : Nat
  lat : ℚ
  lon : ℚ
deriving DecidableEq, Repr

/-- The source's
`df_candidates[df_candidates['facility_id'].isin(selected_facility_ids)]`. -/
def selectedFacilities (cands : List Fac) (ids : List Nat) : List Fac :=
  cands.filter (fun f => ids.contains f.fid)

/-- One plotted layer of the figure: which layer it is and the points it
draws.  Styling (colour, marker size, hover text) is not modelled. -/
structure Trace where
  tag : String
  pts : List (ℚ × ℚ)
deriving DecidableEq, Repr

/-- One conditional `fig.add_trace(...)` block of `update_visualization`. -/
def layerIf (c : Prop) [Decidable c] (tag : String) (pts : List (ℚ × ℚ)) :
    List Trace :=
  if c then [⟨tag, pts⟩] else []

/-- The figure-composition logic of `update_visualization` (lines 229–287):
the list of traces added to the figure, in source order.  `stops`, `demand`
are the coordinate lists of the MARTA-stop and demand tables; `existing` and
`cands` the existing and candidate facility tables; `order` the fixed
selection order; `p` the slider value; `visible` the checklist value. -/
def update_visualization_traces (stops demand : List (ℚ × ℚ))
    (existing cands : List Fac) (order : List Nat) (p : Nat)
    (visible : List String) : List Trace :=
  layerIf ("marta" ∈ visible) "marta" stops ++
  layerIf ("existing" ∈ visible) "existing"
    (existing.map (fun f => (f.lat, f.lon))) ++
  layerIf ("food_deserts" ∈ visible) "food_deserts" demand ++
  layerIf ("new" ∈ visible ∧ 0 < p) "new"
    ((selectedFacilities cands (selectedFor order p)).map (fun f => (f.lat, f.lon)))

/-- Helper used only in specification statements: the travel time of the
metrics entry computed for `p`, defaulting to `0` when the computation
raises. -/
def timeOf (p : Int) : ℚ := ((metricsEntry p).map (fun e => e.time)).getD 0

/-- C5: the hardcoded metrics table satisfies the MetricsTable invariant:
its keys (0,1,2,5,10,15,20,30,40,50,57) are sorted strictly ascending, and
along the table (in key order) the stored time is non-increasing while the
stored tracts and hunv are non-decreasing. -/
theorem metrics_lookup_invariant :
    keys = [0, 1, 2, 5, 10, 15, 20, 30, 40, 50, 57] ∧
    List.Pairwise (fun a b => a < b) keys ∧
    List.Pairwise (fun a b : Int × MetricEntry =>
      b.2.time ≤ a.2.time ∧ a.2.tracts ≤ b.2.tracts ∧ a.2.hunv ≤ b.2.hunv)
      metrics_lookup := by
  refine ⟨by decide, by decide, ?_⟩
  norm_num [metrics_lookup, List.pairwise_cons]

/-- Building the returned record from a computed metrics entry: the tail of
`calculate_metrics` after the entry-selection, made explicit. -/
lemma cm_eq (p : Int) (nd : Nat) (hs : ℚ) (e : MetricEntry)
    (h : metricsEntry p = some e) :
    calculate_metrics p nd hs = some
      { weighted_avg_time := e.time, tracts_served := e.tracts,
        hunv_served := e.hunv, improvement := baseline_time - e.time,
        improvement_pct := (baseline_time - e.time) / baseline_time * 100,
        total_tracts := nd, total_hunv := pyInt hs,
        baseline_time := baseline_time } := by
  unfold calculate_metrics
  rw [h]
  rfl

/-- Value of the metrics entry at `p = 0`. -/
lemma me_0 : metricsEntry 0 = some ⟨2401/50, 0, 0⟩ := by
  rw [metricsEntry]
  norm_num [lookup?, dictGet?, metrics_lookup, keys, List.filter,
    List.max?, List.min?, List.foldl, ratio, pyInt]

/-- Value of the metrics entry at `p = 1`. -/
lemma me_1 : metricsEntry 1 = some ⟨4541/100, 2, 1220⟩ := by
  rw [metricsEntry]
  norm_num [lookup?, dictGet?, metrics_lookup, keys, List.filter,
    List.max?, List.min?, List.foldl, ratio, pyInt]

/-- Value of the metrics entry at `p = 2`. -/
lemma me_2 : metricsEntry 2 = some ⟨1076/25, 4, 1890⟩ := by
  rw [metricsEntry]
  norm_num [lookup?, dictGet?, metrics_lookup, keys, List.filter,
    List.max?, List.min?, List.foldl, ratio, pyInt]

/-- Value of the metrics entry at `p = 3`. -/
lemma me_3 : metricsEntry 3 = some ⟨12437/300, 6, 2735⟩ := by
  rw [metricsEntry]
  norm_num [lookup?, dictGet?, metrics_lookup, keys, List.filter,
    List.max?, List.min?, List.foldl, ratio, pyInt]

/-- Value of the metrics entry at `p = 4`. -/
lemma me_4 : metricsEntry 4 = some ⟨5981/150, 8, 3581⟩ := by
  rw [metricsEntry]
  norm_num [lookup?, dictGet?, metrics_lookup, keys, List.filter,
    List.max?, List.min?, List.foldl, ratio, pyInt]

/-- Value of the metrics entry at `p = 5`. -/
lemma me_5 : metricsEntry 5 = some ⟨3829/100, 11, 4427⟩ := by
  rw [metricsEntry]
  norm_num [lookup?, dictGet?, metrics_lookup, keys, List.filter,
    List.max?, List.min?, List.foldl, ratio, pyInt]

/-- Value of the metrics entry at `p = 6`. -/
lemma me_6 : metricsEntry 6 = some ⟨9351/250, 13, 4994⟩ := by
  rw [metricsEntry]
  norm_num [lookup?, dictGet?, metrics_lookup, keys, List.filter,
    List.max?, List.min?, List.foldl, ratio, pyInt]

/-- Value of the metrics entry at `p = 7`. -/
lemma me_7 : metricsEntry 7 = some ⟨18259/500, 15, 5562⟩ := by
  rw [metricsEntry]
  norm_num [lookup?, dictGet?, metrics_lookup, keys, List.filter,
    List.max?, List.min?, List.foldl, ratio, pyInt]

/-- Value of the metrics entry at `p = 8`. -/
lemma me_8 : metricsEntry 8 = some ⟨4454/125, 17, 6130⟩ := by
  rw [metricsEntry]
  norm_num [lookup?, dictGet?, metrics_lookup, keys, List.filter,
    List.max?, List.min?, List.foldl, ratio, pyInt]

/-- Value of the metrics entry at `p = 9`. -/
lemma me_9 : metricsEntry 9 = some ⟨17373/500, 19, 6698⟩ := by
  rw [metricsEntry]
  norm_num [lookup?, dictGet?, metrics_lookup, keys, List.filter,
    List.max?, List.min?, List.foldl, ratio, pyInt]

/-- Value of the metrics entry at `p = 10`. -/
lemma me_10 : metricsEntry 10 = some ⟨1693/50, 21, 7266⟩ := by
  rw [metricsEntry]
  norm_num [lookup?, dictGet?, metrics_lookup, keys, List.filter,
    List.max?, List.min?, List.foldl, ratio, pyInt]

/-- Value of the metrics entry at `p = 11`. -/
lemma me_11 : metricsEntry 11 = some ⟨663/20, 23, 7667⟩ := by
  rw [metricsEntry]
  norm_num [lookup?, dictGet?, metrics_lookup, keys, List.filter,
    List.max?, List.min?, List.foldl, ratio, pyInt]

/-- Value of the metrics entry at `p = 12`. -/
lemma me_12 : metricsEntry 12 = some ⟨811/25, 25, 8068⟩ := by
  rw [metricsEntry]
  norm_num [lookup?, dictGet?, metrics_lookup, keys, List.filter,
    List.max?, List.min?, List.foldl, ratio, pyInt]

/-- Value of the metrics entry at `p = 13`. -/
lemma me_13 : metricsEntry 13 = some ⟨3173/100, 27, 8470⟩ := by
  rw [metricsEntry]
  norm_num [lookup?, dictGet?, metrics_lookup, keys, List.filter,
    List.max?, List.min?, List.foldl, ratio, pyInt]

/-- Value of the metrics entry at `p = 14`. -/
lemma me_14 : metricsEntry 14 = some ⟨1551/50, 29, 8871⟩ := by
  rw [metricsEntry]
  norm_num [lookup?, dictGet?, metrics_lookup, keys, List.filter,
    List.max?, List.min?, List.foldl, ratio, pyInt]

/-- Value of the metrics entry at `p = 15`. -/
lemma me_15 : metricsEntry 15 = some ⟨3031/100, 31, 9273⟩ := by
  rw [metricsEntry]
  norm_num [lookup?, dictGet?, metrics_lookup, keys, List.filter,
    List.max?, List.min?, List.foldl, ratio, pyInt]

/-- Value of the metrics entry at `p = 16`. -/
lemma me_16 : metricsEntry 16 = some ⟨14911/500, 32, 9632⟩ := by
  rw [metricsEntry]
  norm_num [lookup?, dictGet?, metrics_lookup, keys, List.filter,
    List.max?, List.min?, List.foldl, ratio, pyInt]

/-- Value of the metrics entry at `p = 17`. -/
lemma me_17 : metricsEntry 17 = some ⟨14667/500, 33, 9992⟩ := by
  rw [metricsEntry]
  norm_num [lookup?, dictGet?, metrics_lookup, keys, List.filter,
    List.max?, List.min?, List.foldl, ratio, pyInt]

/-- Value of the metrics entry at `p = 18`. -/
lemma me_18 : metricsEntry 18 = some ⟨14423/500, 35, 10352⟩ := by
  rw [metricsEntry]
  norm_num [lookup?, dictGet?, metrics_lookup, keys, List.filter,
    List.max?, List.min?, List.foldl, ratio, pyInt]

/-- Value of the metrics entry at `p = 19`. -/
lemma me_19 : metricsEntry 19 = some ⟨14179/500, 36, 10712⟩ := by
  rw [metricsEntry]
  norm_num [lookup?, dictGet?, metrics_lookup, keys, List.filter,
    List.max?, List.min?, List.foldl, ratio, pyInt]

/-- Value of the metrics entry at `p = 20`. -/
lemma me_20 : metricsEntry 20 = some ⟨2787/100, 38, 11072⟩ := by
  rw [metricsEntry]
  norm_num [lookup?, dictGet?, metrics_lookup, keys, List.filter,
    List.max?, List.min?, List.foldl, ratio, pyInt]

/-- Value of the metrics entry at `p = 21`. -/
lemma me_21 : metricsEntry 21 = some ⟨27597/1000, 39, 11299⟩ := by
  rw [metricsEntry]
  norm_num [lookup?, dictGet?, metrics_lookup, keys, List.filter,
    List.max?, List.min?, List.foldl, ratio, pyInt]

/-- Value of the metrics entry at `p = 22`. -/
lemma me_22 : metricsEntry 22 = some ⟨6831/250, 40, 11527⟩ := by
  rw [metricsEntry]
  norm_num [lookup?, dictGet?, metrics_lookup, keys, List.filter,
    List.max?, List.min?, List.foldl, ratio, pyInt]

/-- Value of the metrics entry at `p = 23`. -/
lemma me_23 : metricsEntry 23 = some ⟨27051/1000, 41, 11755⟩ := by
  rw [metricsEntry]
  norm_num [lookup?, dictGet?, metrics_lookup, keys, List.filter,
    List.max?, List.min?, List.foldl, ratio, pyInt]

/-- Value of the metrics entry at `p = 24`. -/
lemma me_24 : metricsEntry 24 = some ⟨13389/500, 42, 11982⟩ := by
  rw [metricsEntry]
  norm_num [lookup?, dictGet?, metrics_lookup, keys, List.filter,
    List.max?, List.min?, List.foldl, ratio, pyInt]

/-- Value of the metrics entry at `p = 25`. -/
lemma me_25 : metricsEntry 25 = some ⟨5301/200, 43, 12210⟩ := by
  rw [metricsEntry]
  norm_num [lookup?, dictGet?, metrics_lookup, keys, List.filter,
    List.max?, List.min?, List.foldl, ratio, pyInt]

/-- Value of the metrics entry at `p = 26`. -/
lemma me_26 : metricsEntry 26 = some ⟨3279/125, 44, 12438⟩ := by
  rw [metricsEntry]
  norm_num [lookup?, dictGet?, metrics_lookup, keys, List.filter,
    List.max?, List.min?, List.foldl, ratio, pyInt]

/-- Value of the metrics entry at `p = 27`. -/
lemma me_27 : metricsEntry 27 = some ⟨25959/1000, 45, 12665⟩ := by
  rw [metricsEntry]
  norm_num [lookup?, dictGet?, metrics_lookup, keys, List.filter,
    List.max?, List.min?, List.foldl, ratio, pyInt]

/-- Value of the metrics entry at `p = 28`. -/
lemma me_28 : metricsEntry 28 = some ⟨12843/500, 46, 12893⟩ := by
  rw [metricsEntry]
  norm_num [lookup?, dictGet?, metrics_lookup, keys, List.filter,
    List.max?, List.min?, List.foldl, ratio, pyInt]

/-- Value of the metrics entry at `p = 29`. -/
lemma me_29 : metricsEntry 29 = some ⟨25413/1000, 47, 13121⟩ := by
  rw [metricsEntry]
  norm_num [lookup?, dictGet?, metrics_lookup, keys, List.filter,
    List.max?, List.min?, List.foldl, ratio, pyInt]

/-- Value of the metrics entry at `p = 30`. -/
lemma me_30 : metricsEntry 30 = some ⟨1257/50, 49, 13349⟩ := by
  rw [metricsEntry]
  norm_num [lookup?, dictGet?, metrics_lookup, keys, List.filter,
    List.max?, List.min?, List.foldl, ratio, pyInt]

/-- Value of the metrics entry at `p = 31`. -/
lemma me_31 : metricsEntry 31 = some ⟨24927/1000, 49, 13437⟩ := by
  rw [metricsEntry]
  norm_num [lookup?, dictGet?, metrics_lookup, keys, List.filter,
    List.max?, List.min?, List.foldl, ratio, pyInt]

/-- Value of the metrics entry at `p = 32`. -/
lemma me_32 : metricsEntry 32 = some ⟨12357/500, 50, 13525⟩ := by
  rw [metricsEntry]
  norm_num [lookup?, dictGet?, metrics_lookup, keys, List.filter,
    List.max?, List.min?, List.foldl, ratio, pyInt]

/-- Value of the metrics entry at `p = 33`. -/
lemma me_33 : metricsEntry 33 = some ⟨24501/1000, 51, 13613⟩ := by
  rw [metricsEntry]
  norm_num [lookup?, dictGet?, metrics_lookup, keys, List.filter,
    List.max?, List.min?, List.foldl, ratio, pyInt]

/-- Value of the metrics entry at `p = 34`. -/
lemma me_34 : metricsEntry 34 = some ⟨3036/125, 52, 13702⟩ := by
  rw [metricsEntry]
  norm_num [lookup?, dictGet?, metrics_lookup, keys, List.filter,
    List.max?, List.min?, List.foldl, ratio, pyInt]

/-- Value of the metrics entry at `p = 35`. -/
lemma me_35 : metricsEntry 35 = some ⟨963/40, 53, 13790⟩ := by
  rw [metricsEntry]
  norm_num [lookup?, dictGet?, metrics_lookup, keys, List.filter,
    List.max?, List.min?, List.foldl, ratio, pyInt]

/-- Value of the metrics entry at `p = 36`. -/
lemma me_36 : metricsEntry 36 = some ⟨11931/500, 53, 13878⟩ := by
  rw [metricsEntry]
  norm_num [lookup?, dictGet?, metrics_lookup, keys, List.filter,
    List.max?, List.min?, List.foldl, ratio, pyInt]

/-- Value of the metrics entry at `p = 37`. -/
lemma me_37 : metricsEntry 37 = some ⟨23649/1000, 54, 13967⟩ := by
  rw [metricsEntry]
  norm_num [lookup?, dictGet?, metrics_lookup, keys, List.filter,
    List.max?, List.min?, List.foldl, ratio, pyInt]

/-- Value of the metrics entry at `p = 38`. -/
lemma me_38 : metricsEntry 38 = some ⟨5859/250, 55, 14055⟩ := by
  rw [metricsEntry]
  norm_num [lookup?, dictGet?, metrics_lookup, keys, List.filter,
    List.max?, List.min?, List.foldl, ratio, pyInt]

/-- Value of the metrics entry at `p = 39`. -/
lemma me_39 : metricsEntry 39 = some ⟨23223/1000, 56, 14143⟩ := by
  rw [metricsEntry]
  norm_num [lookup?, dictGet?, metrics_lookup, keys, List.filter,
    List.max?, List.min?, List.foldl, ratio, pyInt]

/-- Value of the metrics entry at `p = 40`. -/
lemma me_40 : metricsEntry 40 = some ⟨2301/100, 57, 14232⟩ := by
  rw [metricsEntry]
  norm_num [lookup?, dictGet?, metrics_lookup, keys, List.filter,
    List.max?, List.min?, List.foldl, ratio, pyInt]

/-- Value of the metrics entry at `p = 41`. -/
lemma me_41 : metricsEntry 41 = some ⟨2849/125, 57, 14232⟩ := by
  rw [metricsEntry]
  norm_num [lookup?, dictGet?, metrics_lookup, keys, List.filter,
    List.max?, List.min?, List.foldl, ratio, pyInt]

/-- Value of the metrics entry at `p = 42`. -/
lemma me_42 : metricsEntry 42 = some ⟨11287/500, 57, 14232⟩ := by
  rw [metricsEntry]
  norm_num [lookup?, dictGet?, metrics_lookup, keys, List.filter,
    List.max?, List.min?, List.foldl, ratio, pyInt]

/-- Value of the metrics entry at `p = 43`. -/
lemma me_43 : metricsEntry 43 = some ⟨5589/250, 57, 14232⟩ := by
  rw [metricsEntry]
  norm_num [lookup?, dictGet?, metrics_lookup, keys, List.filter,
    List.max?, List.min?, List.foldl, ratio, pyInt]

/-- Value of the metrics entry at `p = 44`. -/
lemma me_44 : metricsEntry 44 = some ⟨11069/500, 57, 14232⟩ := by
  rw [metricsEntry]
  norm_num [lookup?, dictGet?, metrics_lookup, keys, List.filter,
    List.max?, List.min?, List.foldl, ratio, pyInt]

/-- Value of the metrics entry at `p = 45`. -/
lemma me_45 : metricsEntry 45 = some ⟨548/25, 57, 14232⟩ := by
  rw [metricsEntry]
  norm_num [lookup?, dictGet?, metrics_lookup, keys, List.filter,
    List.max?, List.min?, List.foldl, ratio, pyInt]

/-- Value of the metrics entry at `p = 46`. -/
lemma me_46 : metricsEntry 46 = some ⟨10851/500, 57, 14232⟩ := by
  rw [metricsEntry]
  norm_num [lookup?, dictGet?, metrics_lookup, keys, List.filter,
    List.max?, List.min?, List.foldl, ratio, pyInt]

/-- Value of the metrics entry at `p = 47`. -/
lemma me_47 : metricsEntry 47 = some ⟨5371/250, 57, 14232⟩ := by
  rw [metricsEntry]
  norm_num [lookup?, dictGet?, metrics_lookup, keys, List.filter,
    List.max?, List.min?, List.foldl, ratio, pyInt]

/-- Value of the metrics entry at `p = 48`. -/
lemma me_48 : metricsEntry 48 = some ⟨10633/500, 57, 14232⟩ := by
  rw [metricsEntry]
  norm_num [lookup?, dictGet?, metrics_lookup, keys, List.filter,
    List.max?, List.min?, List.foldl, ratio, pyInt]

/-- Value of the metrics entry at `p = 49`. -/
lemma me_49 : metricsEntry 49 = some ⟨2631/125, 57, 14232⟩ := by
  rw [metricsEntry]
  norm_num [lookup?, dictGet?, metrics_lookup, keys, List.filter,
    List.max?, List.min?, List.foldl, ratio, pyInt]

/-- Value of the metrics entry at `p = 50`. -/
lemma me_50 : metricsEntry 50 = some ⟨2083/100, 57, 14232⟩ := by
  rw [metricsEntry]
  norm_num [lookup?, dictGet?, metrics_lookup, keys, List.filter,
    List.max?, List.min?, List.foldl, ratio, pyInt]

/-- Value of the metrics entry at `p = 51`. -/
lemma me_51 : metricsEntry 51 = some ⟨7249/350, 57, 14232⟩ := by
  rw [metricsEntry]
  norm_num [lookup?, dictGet?, metrics_lookup, keys, List.filter,
    List.max?, List.min?, List.foldl, ratio, pyInt]

/-- Value of the metrics entry at `p = 52`. -/
lemma me_52 : metricsEntry 52 = some ⟨2883/140, 57, 14232⟩ := by
  rw [metricsEntry]
  norm_num [lookup?, dictGet?, metrics_lookup, keys, List.filter,
    List.max?, List.min?, List.foldl, ratio, pyInt]

/-- Value of the metrics entry at `p = 53`. -/
lemma me_53 : metricsEntry 53 = some ⟨3583/175, 57, 14232⟩ := by
  rw [metricsEntry]
  norm_num [lookup?, dictGet?, metrics_lookup, keys, List.filter,
    List.max?, List.min?, List.foldl, ratio, pyInt]

/-- Value of the metrics entry at `p = 54`. -/
lemma me_54 : metricsEntry 54 = some ⟨14249/700, 57, 14232⟩ := by
  rw [metricsEntry]
  norm_num [lookup?, dictGet?, metrics_lookup, keys, List.filter,
    List.max?, List.min?, List.foldl, ratio, pyInt]

/-- Value of the metrics entry at `p = 55`. -/
lemma me_55 : metricsEntry 55 = some ⟨7083/350, 57, 14232⟩ := by
  rw [metricsEntry]
  norm_num [lookup?, dictGet?, metrics_lookup, keys, List.filter,
    List.max?, List.min?, List.foldl, ratio, pyInt]

/-- Value of the metrics entry at `p = 56`. -/
lemma me_56 : metricsEntry 56 = some ⟨14083/700, 57, 14232⟩ := by
  rw [metricsEntry]
  norm_num [lookup?, dictGet?, metrics_lookup, keys, List.filter,
    List.max?, List.min?, List.foldl, ratio, pyInt]

/-- Value of the metrics entry at `p = 57`. -/
lemma me_57 : metricsEntry 57 = some ⟨20, 57, 14232⟩ := by
  rw [metricsEntry]
  norm_num [lookup?, dictGet?, metrics_lookup, keys, List.filter,
    List.max?, List.min?, List.foldl, ratio, pyInt]


/-- C2: for every integer `p` that is a key of the fixed metrics table,
`calculate_metrics p` returns exactly the table's stored record for `p`:
its `time` as `weighted_avg_time`, its `tracts` as `tracts_served` and its
`hunv` as `hunv_served`, with no interpolation applied. -/
theorem calculate_metrics_table_exact (p : Int) (hp : p ∈ keys)
    (nd : Nat) (hs : ℚ) :
    lookup? p = some (entryD p) ∧
    ∃ m, calculate_metrics p nd hs = some m ∧
      m.weighted_avg_time = (entryD p).time ∧
      m.tracts_served = (entryD p).tracts ∧
      m.hunv_served = (entryD p).hunv := by
  have hp' : p = 0 ∨ p = 1 ∨ p = 2 ∨ p = 5 ∨ p = 10 ∨ p = 15 ∨ p = 20 ∨
      p = 30 ∨ p = 40 ∨ p = 50 ∨ p = 57 := by
    simpa [keys, metrics_lookup] using hp
  rcases hp' with rfl | rfl | rfl | rfl | rfl | rfl | rfl | rfl | rfl | rfl | rfl <;>
    refine ⟨by norm_num [lookup?, dictGet?, metrics_lookup, entryD], _,
      cm_eq _ nd hs _ (by first
        | exact me_0 | exact me_1 | exact me_2 | exact me_5 | exact me_10
        | exact me_15 | exact me_20 | exact me_30 | exact me_40 | exact me_50
        | exact me_57), ?_, ?_, ?_⟩ <;>
    norm_num [entryD, lookup?, dictGet?, metrics_lookup]

/-- Witness for C2 at the concrete key `p = 10`. -/
theorem calculate_metrics_table_exact_witness :
    (10 : Int) ∈ keys ∧
    (lookup? 10 = some (entryD 10) ∧
     ∃ m, calculate_metrics 10 3 0 = some m ∧
       m.weighted_avg_time = (entryD 10).time ∧
       m.tracts_served = (entryD 10).tracts ∧
       m.hunv_served = (entryD 10).hunv) :=
  ⟨by decide, calculate_metrics_table_exact 10 (by decide) 3 0⟩

/-- C3: `calculate_metrics 10` returns `weighted_avg_time = 33.86`,
`tracts_served = 21`, `hunv_served = 7266`,
`improvement = 48.02 - 33.86 = 14.16` and
`improvement_pct = (14.16 / 48.02) * 100 ≈ 29.49` (within `0.01`). -/
theorem calculate_metrics_at_ten (nd : Nat) (hs : ℚ) :
    ∃ m, calculate_metrics 10 nd hs = some m ∧
      m.weighted_avg_time = 3386/100 ∧
      m.tracts_served = 21 ∧
      m.hunv_served = 7266 ∧
      m.improvement = 4802/100 - 3386/100 ∧
      m.improvement = 1416/100 ∧
      m.improvement_pct = 1416/100 / (4802/100) * 100 ∧
      |m.improvement_pct - 2949/100| < 1/100 := by
  refine ⟨_, cm_eq 10 nd hs _ me_10, ?_, ?_, ?_, ?_, ?_, ?_, ?_⟩ <;>
    first
      | (rw [abs_sub_lt_iff]; constructor <;> norm_num [baseline_time])
      | norm_num [baseline_time]

/-- Inversion for `calculate_metrics`: a returned record's travel time is the
computed entry's time. -/
lemma cm_time (p : Int) (nd : Nat) (hs : ℚ) (m : Metrics)
    (h : calculate_metrics p nd hs = some m) :
    m.weighted_avg_time = timeOf p := by
  unfold calculate_metrics at h
  rcases he : metricsEntry p with _ | e
  · rw [he] at h; simp at h
  · rw [he] at h
    simp only [Option.map_some'] at h
    cases h.symm
    simp [timeOf, he]

/-- One step of the travel-time monotonicity, checked value by value. -/
lemma time_step (p : Int) (h0 : 0 ≤ p) (h57 : p < 57) :
    timeOf (p + 1) ≤ timeOf p := by
  interval_cases p <;>
    norm_num [timeOf, me_0, me_1, me_2, me_3, me_4, me_5, me_6, me_7, me_8, me_9, me_10, me_11, me_12, me_13, me_14, me_15, me_16, me_17, me_18, me_19, me_20, me_21, me_22, me_23, me_24, me_25, me_26, me_27, me_28, me_29, me_30, me_31, me_32, me_33, me_34, me_35, me_36, me_37, me_38, me_39, me_40, me_41, me_42, me_43, me_44, me_45, me_46, me_47, me_48, me_49, me_50, me_51, me_52, me_53, me_54, me_55, me_56, me_57]

/-- Chained travel-time monotonicity over the table's range. -/
lemma timeOf_anti (p : Int) (n : Nat) (h0 : 0 ≤ p) (h57 : p + n ≤ 57) :
    timeOf (p + n) ≤ timeOf p := by
  induction n with
  | zero => simp
  | succ k ih =>
    have hcast : ((k + 1 : Nat) : Int) = (k : Int) + 1 := by push_cast; ring
    have hk57 : p + (k : Int) ≤ 57 := by rw [hcast] at h57; omega
    have h1 : timeOf (p + (k : Int) + 1) ≤ timeOf (p + (k : Int)) :=
      time_step _ (by omega) (by omega)
    have h2 := ih hk57
    rw [hcast, ← add_assoc]
    exact h1.trans h2

/-- C4: for every pair of integers `p1 < p2` inside `[0, 57]`, the travel
time returned by `calculate_metrics` does not increase from `p1` to `p2`
(facilities added can only improve the weighted average travel time); this
rests on the table invariant of `metrics_lookup_invariant`. -/
theorem calculate_metrics_time_antitone (p1 p2 : Int) (h0 : 0 ≤ p1)
    (h12 : p1 < p2) (h57 : p2 ≤ 57) (nd : Nat) (hs : ℚ) (m1 m2 : Metrics)
    (e1 : calculate_metrics p1 nd hs = some m1)
    (e2 : calculate_metrics p2 nd hs = some m2) :
    m2.weighted_avg_time ≤ m1.weighted_avg_time := by
  rw [cm_time p1 nd hs m1 e1, cm_time p2 nd hs m2 e2]
  have hmain := timeOf_anti p1 ((p2 - p1).toNat) h0 (by omega)
  have hcast : p1 + (((p2 - p1).toNat : Nat) : Int) = p2 := by omega
  rwa [hcast] at hmain

/-- Witness for C4 at `p1 = 0`, `p2 = 57`. -/
theorem calculate_metrics_time_antitone_witness :
    ({ weighted_avg_time := 20, tracts_served := 57, hunv_served := 14232,
       improvement := baseline_time - 20,
       improvement_pct := (baseline_time - 20) / baseline_time * 100,
       total_tracts := 0, total_hunv := pyInt 0,
       baseline_time := baseline_time } : Metrics).weighted_avg_time ≤
    ({ weighted_avg_time := 2401/50, tracts_served := 0, hunv_served := 0,
       improvement := baseline_time - 2401/50,
       improvement_pct := (baseline_time - 2401/50) / baseline_time * 100,
       total_tracts := 0, total_hunv := pyInt 0,
       baseline_time := baseline_time } : Metrics).weighted_avg_time :=
  calculate_metrics_time_antitone 0 57 (by norm_num) (by norm_num)
    (by norm_num) 0 0 _ _ (cm_eq 0 0 0 _ me_0) (cm_eq 57 0 0 _ me_57)


/-- Every table key lies in `[0, 57]`. -/
lemma keys_bounds : ∀ k ∈ keys, 0 ≤ k ∧ k ≤ 57 := by decide

/-- An out-of-range `p` is not a dictionary key. -/
lemma lookup?_eq_none_of_out (p : Int) (h : p < 0 ∨ 57 < p) :
    lookup? p = none := by
  have h0 : ¬((0 : Int) = p) := by omega
  have h1 : ¬((1 : Int) = p) := by omega
  have h2 : ¬((2 : Int) = p) := by omega
  have h5 : ¬((5 : Int) = p) := by omega
  have h10 : ¬((10 : Int) = p) := by omega
  have h15 : ¬((15 : Int) = p) := by omega
  have h20 : ¬((20 : Int) = p) := by omega
  have h30 : ¬((30 : Int) = p) := by omega
  have h40 : ¬((40 : Int) = p) := by omega
  have h50 : ¬((50 : Int) = p) := by omega
  have h57 : ¬((57 : Int) = p) := by omega
  simp [lookup?, dictGet?, metrics_lookup, h0, h1, h2, h5, h10, h15, h20,
    h30, h40, h50, h57]

/-- Outside the table's key range the entry computation raises (models the
`ValueError` of `max([])` for `p < 0` and of `min([])` for `p > 57`). -/
lemma metricsEntry_eq_none_of_out (p : Int) (h : p < 0 ∨ 57 < p) :
    metricsEntry p = none := by
  have hlk : lookup? p = none := lookup?_eq_none_of_out p h
  rcases h with h | h
  · have hmax : (keys.filter (fun k => decide (k ≤ p))).max? = none := by
      rw [show keys.filter (fun k => decide (k ≤ p)) = [] from
        List.filter_eq_nil_iff.mpr (fun k hk => by
          have := keys_bounds k hk
          simp only [decide_eq_true_eq]
          omega)]
      exact List.max?_nil
    rcases hmin : (keys.filter (fun k => decide (p ≤ k))).min? with _ | u <;>
      simp [metricsEntry, hlk, hmax, hmin]
  · have hmin : (keys.filter (fun k => decide (p ≤ k))).min? = none := by
      rw [show keys.filter (fun k => decide (p ≤ k)) = [] from
        List.filter_eq_nil_iff.mpr (fun k hk => by
          have := keys_bounds k hk
          simp only [decide_eq_true_eq]
          omega)]
      exact List.min?_nil
    rcases hmax : (keys.filter (fun k => decide (k ≤ p))).max? with _ | u <;>
      simp [metricsEntry, hlk, hmax, hmin]

/-- Inside the range the entry computation always succeeds. -/
lemma metricsEntry_isSome (p : Int) (h0 : 0 ≤ p) (h57 : p ≤ 57) :
    (metricsEntry p).isSome = true := by
  interval_cases p <;> simp [me_0, me_1, me_2, me_3, me_4, me_5, me_6, me_7, me_8, me_9, me_10, me_11, me_12, me_13, me_14, me_15, me_16, me_17, me_18, me_19, me_20, me_21, me_22, me_23, me_24, me_25, me_26, me_27, me_28, me_29, me_30, me_31, me_32, me_33, me_34, me_35, me_36, me_37, me_38, me_39, me_40, me_41, me_42, me_43, me_44, me_45, me_46, me_47, me_48, me_49, me_50, me_51, me_52, me_53, me_54, me_55, me_56, me_57]

/-- C8: `calculate_metrics p` raises an error if and only if the integer `p`
is outside `[0, 57]`: inside the range it returns a record normally, while
outside it the empty-candidate `max`/`min` search fails (there is no bounds
check in the source). -/
theorem calculate_metrics_error_iff (p : Int) (nd : Nat) (hs : ℚ) :
    calculate_metrics p nd hs = none ↔ (p < 0 ∨ 57 < p) := by
  unfold calculate_metrics
  rw [Option.map_eq_none']
  constructor
  · intro h
    by_contra hc
    push_neg at hc
    have hsome := metricsEntry_isSome p (by omega) (by omega)
    rw [h] at hsome
    simp at hsome
  · exact metricsEntry_eq_none_of_out p


set_option maxHeartbeats 3200000 in
/-- C1: for every integer `p` in `[0, 57]` that is not a table key,
`calculate_metrics` finds `lower` = the greatest table key `≤ p` and
`upper` = the least table key `≥ p`, forms the ratio
`r = (p - lower) / (upper - lower)` (`0` when `lower = upper`), returns
`weighted_avg_time` as the exact linear interpolation
`lower.time + r * (upper.time - lower.time)`, and returns `tracts_served`
and `hunv_served` as the same linear interpolation truncated (not rounded)
to integers. -/
theorem calculate_metrics_interpolates (p : Int) (h0 : 0 ≤ p) (h57 : p ≤ 57)
    (hk : p ∉ keys) (nd : Nat) (hs : ℚ) :
    ∃ lower upper : Int, lower ∈ keys ∧ upper ∈ keys ∧
      lower ≤ p ∧ p ≤ upper ∧
      (∀ k ∈ keys, k ≤ p → k ≤ lower) ∧ (∀ k ∈ keys, p ≤ k → upper ≤ k) ∧
      ∃ m, calculate_metrics p nd hs = some m ∧
        m.weighted_avg_time = (entryD lower).time +
          (if lower = upper then 0
            else ((p : ℚ) - (lower : ℚ)) / ((upper : ℚ) - (lower : ℚ))) *
          ((entryD upper).time - (entryD lower).time) ∧
        m.tracts_served = pyInt (((entryD lower).tracts : ℚ) +
          (if lower = upper then 0
            else ((p : ℚ) - (lower : ℚ)) / ((upper : ℚ) - (lower : ℚ))) *
          (((entryD upper).tracts : ℚ) - ((entryD lower).tracts : ℚ))) ∧
        m.hunv_served = pyInt (((entryD lower).hunv : ℚ) +
          (if lower = upper then 0
            else ((p : ℚ) - (lower : ℚ)) / ((upper : ℚ) - (lower : ℚ))) *
          (((entryD upper).hunv : ℚ) - ((entryD lower).hunv : ℚ))) := by
  interval_cases p
  · exact absurd (by decide) hk
  · exact absurd (by decide) hk
  · exact absurd (by decide) hk
  · refine ⟨2, 5, by decide, by decide, by decide, by decide,
      by decide, by decide, _, cm_eq 3 nd hs _ me_3, ?_, ?_, ?_⟩ <;>
      norm_num [entryD, lookup?, dictGet?, metrics_lookup, pyInt]
  · refine ⟨2, 5, by decide, by decide, by decide, by decide,
      by decide, by decide, _, cm_eq 4 nd hs _ me_4, ?_, ?_, ?_⟩ <;>
      norm_num [entryD, lookup?, dictGet?, metrics_lookup, pyInt]
  · exact absurd (by decide) hk
  · refine ⟨5, 10, by decide, by decide, by decide, by decide,
      by decide, by decide, _, cm_eq 6 nd hs _ me_6, ?_, ?_, ?_⟩ <;>
      norm_num [entryD, lookup?, dictGet?, metrics_lookup, pyInt]
  · refine ⟨5, 10, by decide, by decide, by decide, by decide,
      by decide, by decide, _, cm_eq 7 nd hs _ me_7, ?_, ?_, ?_⟩ <;>
      norm_num [entryD, lookup?, dictGet?, metrics_lookup, pyInt]
  · refine ⟨5, 10, by decide, by decide, by decide, by decide,
      by decide, by decide, _, cm_eq 8 nd hs _ me_8, ?_, ?_, ?_⟩ <;>
      norm_num [entryD, lookup?, dictGet?, metrics_lookup, pyInt]
  · refine ⟨5, 10, by decide, by decide, by decide, by decide,
      by decide, by decide, _, cm_eq 9 nd hs _ me_9, ?_, ?_, ?_⟩ <;>
      norm_num [entryD, lookup?, dictGet?, metrics_lookup, pyInt]
  · exact absurd (by decide) hk
  · refine ⟨10, 15, by decide, by decide, by decide, by decide,
      by decide, by decide, _, cm_eq 11 nd hs _ me_11, ?_, ?_, ?_⟩ <;>
      norm_num [entryD, lookup?, dictGet?, metrics_lookup, pyInt]
  · refine ⟨10, 15, by decide, by decide, by decide, by decide,
      by decide, by decide, _, cm_eq 12 nd hs _ me_12, ?_, ?_, ?_⟩ <;>
      norm_num [entryD, lookup?, dictGet?, metrics_lookup, pyInt]
  · refine ⟨10, 15, by decide, by decide, by decide, by decide,
      by decide, by decide, _, cm_eq 13 nd hs _ me_13, ?_, ?_, ?_⟩ <;>
      norm_num [entryD, lookup?, dictGet?, metrics_lookup, pyInt]
  · refine ⟨10, 15, by decide, by decide, by decide, by decide,
      by decide, by decide, _, cm_eq 14 nd hs _ me_14, ?_, ?_, ?_⟩ <;>
      norm_num [entryD, lookup?, dictGet?, metrics_lookup, pyInt]
  · exact absurd (by decide) hk
  · refine ⟨15, 20, by decide, by decide, by decide, by decide,
      by decide, by decide, _, cm_eq 16 nd hs _ me_16, ?_, ?_, ?_⟩ <;>
      norm_num [entryD, lookup?, dictGet?, metrics_lookup, pyInt]
  · refine ⟨15, 20, by decide, by decide, by decide, by decide,
      by decide, by decide, _, cm_eq 17 nd hs _ me_17, ?_, ?_, ?_⟩ <;>
      norm_num [entryD, lookup?, dictGet?, metrics_lookup, pyInt]
  · refine ⟨15, 20, by decide, by decide, by decide, by decide,
      by decide, by decide, _, cm_eq 18 nd hs _ me_18, ?_, ?_, ?_⟩ <;>
      norm_num [entryD, lookup?, dictGet?, metrics_lookup, pyInt]
  · refine ⟨15, 20, by decide, by decide, by decide, by decide,
      by decide, by decide, _, cm_eq 19 nd hs _ me_19, ?_, ?_, ?_⟩ <;>
      norm_num [entryD, lookup?, dictGet?, metrics_lookup, pyInt]
  · exact absurd (by decide) hk
  · refine ⟨20, 30, by decide, by decide, by decide, by decide,
      by decide, by decide, _, cm_eq 21 nd hs _ me_21, ?_, ?_, ?_⟩ <;>
      norm_num [entryD, lookup?, dictGet?, metrics_lookup, pyInt]
  · refine ⟨20, 30, by decide, by decide, by decide, by decide,
      by decide, by decide, _, cm_eq 22 nd hs _ me_22, ?_, ?_, ?_⟩ <;>
      norm_num [entryD, lookup?, dictGet?, metrics_lookup, pyInt]
  · refine ⟨20, 30, by decide, by decide, by decide, by decide,
      by decide, by decide, _, cm_eq 23 nd hs _ me_23, ?_, ?_, ?_⟩ <;>
      norm_num [entryD, lookup?, dictGet?, metrics_lookup, pyInt]
  · refine ⟨20, 30, by decide, by decide, by decide, by decide,
      by decide, by decide, _, cm_eq 24 nd hs _ me_24, ?_, ?_, ?_⟩ <;>
      norm_num [entryD, lookup?, dictGet?, metrics_lookup, pyInt]
  · refine ⟨20, 30, by decide, by decide, by decide, by decide,
      by decide, by decide, _, cm_eq 25 nd hs _ me_25, ?_, ?_, ?_⟩ <;>
      norm_num [entryD, lookup?, dictGet?, metrics_lookup, pyInt]
  · refine ⟨20, 30, by decide, by decide, by decide, by decide,
      by decide, by decide, _, cm_eq 26 nd hs _ me_26, ?_, ?_, ?_⟩ <;>
      norm_num [entryD, lookup?, dictGet?, metrics_lookup, pyInt]
  · refine ⟨20, 30, by decide, by decide, by decide, by decide,
      by decide, by decide, _, cm_eq 27 nd hs _ me_27, ?_, ?_, ?_⟩ <;>
      norm_num [entryD, lookup?, dictGet?, metrics_lookup, pyInt]
  · refine ⟨20, 30, by decide, by decide, by decide, by decide,
      by decide, by decide, _, cm_eq 28 nd hs _ me_28, ?_, ?_, ?_⟩ <;>
      norm_num [entryD, lookup?, dictGet?, metrics_lookup, pyInt]
  · refine ⟨20, 30, by decide, by decide, by decide, by decide,
      by decide, by decide, _, cm_eq 29 nd hs _ me_29, ?_, ?_, ?_⟩ <;>
      norm_num [entryD, lookup?, dictGet?, metrics_lookup, pyInt]
  · exact absurd (by decide) hk
  · refine ⟨30, 40, by decide, by decide, by decide, by decide,
      by decide, by decide, _, cm_eq 31 nd hs _ me_31, ?_, ?_, ?_⟩ <;>
      norm_num [entryD, lookup?, dictGet?, metrics_lookup, pyInt]
  · refine ⟨30, 40, by decide, by decide, by decide, by decide,
      by decide, by decide, _, cm_eq 32 nd hs _ me_32, ?_, ?_, ?_⟩ <;>
      norm_num [entryD, lookup?, dictGet?, metrics_lookup, pyInt]
  · refine ⟨30, 40, by decide, by decide, by decide, by decide,
      by decide, by decide, _, cm_eq 33 nd hs _ me_33, ?_, ?_, ?_⟩ <;>
      norm_num [entryD, lookup?, dictGet?, metrics_lookup, pyInt]
  · refine ⟨30, 40, by decide, by decide, by decide, by decide,
      by decide, by decide, _, cm_eq 34 nd hs _ me_34, ?_, ?_, ?_⟩ <;>
      norm_num [entryD, lookup?, dictGet?, metrics_lookup, pyInt]
  · refine ⟨30, 40, by decide, by decide, by decide, by decide,
      by decide, by decide, _, cm_eq 35 nd hs _ me_35, ?_, ?_, ?_⟩ <;>
      norm_num [entryD, lookup?, dictGet?, metrics_lookup, pyInt]
  · refine ⟨30, 40, by decide, by decide, by decide, by decide,
      by decide, by decide, _, cm_eq 36 nd hs _ me_36, ?_, ?_, ?_⟩ <;>
      norm_num [entryD, lookup?, dictGet?, metrics_lookup, pyInt]
  · refine ⟨30, 40, by decide, by decide, by decide, by decide,
      by decide, by decide, _, cm_eq 37 nd hs _ me_37, ?_, ?_, ?_⟩ <;>
      norm_num [entryD, lookup?, dictGet?, metrics_lookup, pyInt]
  · refine ⟨30, 40, by decide, by decide, by decide, by decide,
      by decide, by decide, _, cm_eq 38 nd hs _ me_38, ?_, ?_, ?_⟩ <;>
      norm_num [entryD, lookup?, dictGet?, metrics_lookup, pyInt]
  · refine ⟨30, 40, by decide, by decide, by decide, by decide,
      by decide, by decide, _, cm_eq 39 nd hs _ me_39, ?_, ?_, ?_⟩ <;>
      norm_num [entryD, lookup?, dictGet?, metrics_lookup, pyInt]
  · exact absurd (by decide) hk
  · refine ⟨40, 50, by decide, by decide, by decide, by decide,
      by decide, by decide, _, cm_eq 41 nd hs _ me_41, ?_, ?_, ?_⟩ <;>
      norm_num [entryD, lookup?, dictGet?, metrics_lookup, pyInt]
  · refine ⟨40, 50, by decide, by decide, by decide, by decide,
      by decide, by decide, _, cm_eq 42 nd hs _ me_42, ?_, ?_, ?_⟩ <;>
      norm_num [entryD, lookup?, dictGet?, metrics_lookup, pyInt]
  · refine ⟨40, 50, by decide, by decide, by decide, by decide,
      by decide, by decide, _, cm_eq 43 nd hs _ me_43, ?_, ?_, ?_⟩ <;>
      norm_num [entryD, lookup?, dictGet?, metrics_lookup, pyInt]
  · refine ⟨40, 50, by decide, by decide, by decide, by decide,
      by decide, by decide, _, cm_eq 44 nd hs _ me_44, ?_, ?_, ?_⟩ <;>
      norm_num [entryD, lookup?, dictGet?, metrics_lookup, pyInt]
  · refine ⟨40, 50, by decide, by decide, by decide, by decide,
      by decide, by decide, _, cm_eq 45 nd hs _ me_45, ?_, ?_, ?_⟩ <;>
      norm_num [entryD, lookup?, dictGet?, metrics_lookup, pyInt]
  · refine ⟨40, 50, by decide, by decide, by decide, by decide,
      by decide, by decide, _, cm_eq 46 nd hs _ me_46, ?_, ?_, ?_⟩ <;>
      norm_num [entryD, lookup?, dictGet?, metrics_lookup, pyInt]
  · refine ⟨40, 50, by decide, by decide, by decide, by decide,
      by decide, by decide, _, cm_eq 47 nd hs _ me_47, ?_, ?_, ?_⟩ <;>
      norm_num [entryD, lookup?, dictGet?, metrics_lookup, pyInt]
  · refine ⟨40, 50, by decide, by decide, by decide, by decide,
      by decide, by decide, _, cm_eq 48 nd hs _ me_48, ?_, ?_, ?_⟩ <;>
      norm_num [entryD, lookup?, dictGet?, metrics_lookup, pyInt]
  · refine ⟨40, 50, by decide, by decide, by decide, by decide,
      by decide, by decide, _, cm_eq 49 nd hs _ me_49, ?_, ?_, ?_⟩ <;>
      norm_num [entryD, lookup?, dictGet?, metrics_lookup, pyInt]
  · exact absurd (by decide) hk
  · refine ⟨50, 57, by decide, by decide, by decide, by decide,
      by decide, by decide, _, cm_eq 51 nd hs _ me_51, ?_, ?_, ?_⟩ <;>
      norm_num [entryD, lookup?, dictGet?, metrics_lookup, pyInt]
  · refine ⟨50, 57, by decide, by decide, by decide, by decide,
      by decide, by decide, _, cm_eq 52 nd hs _ me_52, ?_, ?_, ?_⟩ <;>
      norm_num [entryD, lookup?, dictGet?, metrics_lookup, pyInt]
  · refine ⟨50, 57, by decide, by decide, by decide, by decide,
      by decide, by decide, _, cm_eq 53 nd hs _ me_53, ?_, ?_, ?_⟩ <;>
      norm_num [entryD, lookup?, dictGet?, metrics_lookup, pyInt]
  · refine ⟨50, 57, by decide, by decide, by decide, by decide,
      by decide, by decide, _, cm_eq 54 nd hs _ me_54, ?_, ?_, ?_⟩ <;>
      norm_num [entryD, lookup?, dictGet?, metrics_lookup, pyInt]
  · refine ⟨50, 57, by decide, by decide, by decide, by decide,
      by decide, by decide, _, cm_eq 55 nd hs _ me_55, ?_, ?_, ?_⟩ <;>
      norm_num [entryD, lookup?, dictGet?, metrics_lookup, pyInt]
  · refine ⟨50, 57, by decide, by decide, by decide, by decide,
      by decide, by decide, _, cm_eq 56 nd hs _ me_56, ?_, ?_, ?_⟩ <;>
      norm_num [entryD, lookup?, dictGet?, metrics_lookup, pyInt]
  · exact absurd (by decide) hk

/-- Witness for C1 at the non-key slider value `p = 3`. -/
theorem calculate_metrics_interpolates_witness :
    (0 : Int) ≤ 3 ∧ (3 : Int) ≤ 57 ∧ (3 : Int) ∉ keys ∧
    (∃ lower upper : Int, lower ∈ keys ∧ upper ∈ keys ∧
      lower ≤ 3 ∧ (3 : Int) ≤ upper ∧
      (∀ k ∈ keys, k ≤ 3 → k ≤ lower) ∧
      (∀ k ∈ keys, (3 : Int) ≤ k → upper ≤ k) ∧
      ∃ m, calculate_metrics 3 0 0 = some m ∧
        m.weighted_avg_time = (entryD lower).time +
          (if lower = upper then 0
            else (((3 : Int) : ℚ) - (lower : ℚ)) / ((upper : ℚ) - (lower : ℚ))) *
          ((entryD upper).time - (entryD lower).time) ∧
        m.tracts_served = pyInt (((entryD lower).tracts : ℚ) +
          (if lower = upper then 0
            else (((3 : Int) : ℚ) - (lower : ℚ)) / ((upper : ℚ) - (lower : ℚ))) *
          (((entryD upper).tracts : ℚ) - ((entryD lower).tracts : ℚ))) ∧
        m.hunv_served = pyInt (((entryD lower).hunv : ℚ) +
          (if lower = upper then 0
            else (((3 : Int) : ℚ) - (lower : ℚ)) / ((upper : ℚ) - (lower : ℚ))) *
          (((entryD upper).hunv : ℚ) - ((entryD lower).hunv : ℚ)))) :=
  ⟨by norm_num, by norm_num, by decide,
    calculate_metrics_interpolates 3 (by norm_num) (by norm_num) (by decide) 0 0⟩

/-- C6: for every `p ≥ 0`, the id list selected for `p` (the first `p`
entries of the fixed selection order) extends to the one selected for
`p + 1` by appending a (possibly empty) tail — the stable prefix
property for one fixed order. -/
theorem selectedFor_extends (order : List Nat) (p : Nat) :
    ∃ t, selectedFor order (p + 1) = selectedFor order p ++ t := by
  refine ⟨(order.take (p + 1)).drop p, ?_⟩
  have h : selectedFor order p = (order.take (p + 1)).take p := by
    rw [selectedFor, List.take_take, min_eq_left (Nat.le_succ p)]
  rw [h, selectedFor, List.take_append_drop]

/-- Reading every position of a list in index order reproduces the list. -/
lemma map_getD_range (l : List Nat) :
    (List.range l.length).map (fun i => l.getD i 0) = l := by
  apply List.ext_getElem (by simp)
  intro i h1 h2
  simp [List.getD_eq_getElem?_getD, List.getElem?_eq_getElem h2]

/-- On valid positions of a duplicate-free list, positional reads are
injective. -/
lemma getD_inj (l : List Nat) (hnd : l.Nodup) {i j : Nat}
    (hi : i < l.length) (hj : j < l.length)
    (h : l.getD i 0 = l.getD j 0) : i = j := by
  have h' : l.get ⟨i, hi⟩ = l.get ⟨j, hj⟩ := by
    simpa [List.getD_eq_getElem?_getD, List.getElem?_eq_getElem, hi, hj,
      List.get_eq_getElem] using h
  have := (List.Nodup.get_inj_iff hnd).mp h'
  simpa using this

/-- C7 (amended): for a candidate table with distinct facility ids and at
most 57 candidates, `simulate_greedy_selection` returns a permutation of all
candidate facility ids — each id appears exactly once.  (As stated over
every candidate table the claim fails: the draw is capped at
`min(max_p, len)` rows, see `simulate_greedy_selection_not_all`.) -/
theorem simulate_greedy_selection_draws_all (candidates sample : List Nat)
    (h : validSample candidates sample 57) (hnd : candidates.Nodup)
    (hlen : candidates.length ≤ 57) :
    (simulate_greedy_selection candidates sample 57).Perm candidates ∧
    ∀ c ∈ candidates,
      (simulate_greedy_selection candidates sample 57).count c = 1 := by
  obtain ⟨hs1, hs2, hs3⟩ := h
  have hlen' : sample.length = candidates.length := by omega
  have htake : sample.take 57 = sample := List.take_of_length_le (by omega)
  have hsub : sample ⊆ List.range candidates.length :=
    fun i hi => List.mem_range.mpr (hs2 i hi)
  have hperm : sample.Perm (List.range candidates.length) :=
    (hs1.subperm hsub).perm_of_length_le (by simp [hlen'])
  have hmain : simulate_greedy_selection candidates sample 57 =
      sample.map (fun i => candidates.getD i 0) := by
    unfold simulate_greedy_selection
    rw [htake]
  have hfinal : (sample.map (fun i => candidates.getD i 0)).Perm candidates := by
    have h2 := hperm.map (fun i => candidates.getD i 0)
    rwa [map_getD_range candidates] at h2
  rw [hmain]
  refine ⟨hfinal, fun c hc => ?_⟩
  rw [hfinal.count_eq c]
  exact List.count_eq_one_of_mem hnd hc

/-- Counterexample to C7 as stated: with 58 distinct candidate ids and any
valid without-replacement draw (here one concrete such draw), the selection
order cannot contain every candidate, because the draw is capped at 57
rows. -/
theorem simulate_greedy_selection_not_all :
    validSample (List.range 58) (List.range 57) 57 ∧
    (List.range 58).Nodup ∧
    ¬ ∀ c ∈ List.range 58,
        c ∈ simulate_greedy_selection (List.range 58) (List.range 57) 57 := by
  decide

/-- Witness for the amended C7 on a two-candidate table. -/
theorem simulate_greedy_selection_draws_all_witness :
    validSample [4, 6] [1, 0] 57 ∧ ([4, 6] : List Nat).Nodup ∧
    ([4, 6] : List Nat).length ≤ 57 ∧
    ((simulate_greedy_selection [4, 6] [1, 0] 57).Perm [4, 6] ∧
     ∀ c ∈ [4, 6], (simulate_greedy_selection [4, 6] [1, 0] 57).count c = 1) :=
  ⟨by decide, by decide, by decide,
    simulate_greedy_selection_draws_all [4, 6] [1, 0] (by decide) (by decide)
      (by decide)⟩

/-- C10: taking the first `p` entries of the startup selection order is
total — it yields exactly `min p (length of the order)` ids — and the
resulting id list has no duplicates, because the order was drawn by
sampling candidate rows without replacement (given distinct candidate
ids). -/
theorem selected_ids_safe_and_nodup (candidates sample : List Nat) (p : Nat)
    (h : validSample candidates sample 57) (hnd : candidates.Nodup) :
    (selectedFor (simulate_greedy_selection candidates sample 57) p).length =
      min p (simulate_greedy_selection candidates sample 57).length ∧
    (selectedFor (simulate_greedy_selection candidates sample 57) p).Nodup := by
  obtain ⟨hs1, hs2, hs3⟩ := h
  constructor
  · rw [selectedFor, List.length_take]
  · have hordernd : (simulate_greedy_selection candidates sample 57).Nodup := by
      unfold simulate_greedy_selection
      have htn : (sample.take 57).Nodup :=
        List.Nodup.sublist (List.take_sublist 57 sample) hs1
      refine List.Nodup.map_on ?_ htn
      intro i hi j hj hf
      have hi' : i < candidates.length := hs2 i (List.take_subset 57 sample hi)
      have hj' : j < candidates.length := hs2 j (List.take_subset 57 sample hj)
      exact getD_inj candidates hnd hi' hj' hf
    exact List.Nodup.sublist (List.take_sublist p _) hordernd

/-- Witness for C10 with a three-candidate table and `p = 10` past the
order's length. -/
theorem selected_ids_safe_and_nodup_witness :
    validSample [5, 7, 9] [2, 0, 1] 57 ∧ ([5, 7, 9] : List Nat).Nodup ∧
    ((selectedFor (simulate_greedy_selection [5, 7, 9] [2, 0, 1] 57) 10).length =
       min 10 (simulate_greedy_selection [5, 7, 9] [2, 0, 1] 57).length ∧
     (selectedFor (simulate_greedy_selection [5, 7, 9] [2, 0, 1] 57) 10).Nodup) :=
  ⟨by decide, by decide,
    selected_ids_safe_and_nodup [5, 7, 9] [2, 0, 1] 10 (by decide) (by decide)⟩

/-- Membership in a conditional trace block. -/
lemma mem_layerIf_iff (c : Prop) [Decidable c] (tag : String)
    (pts : List (ℚ × ℚ)) (tr : Trace) :
    tr ∈ layerIf c tag pts ↔ c ∧ tr = ⟨tag, pts⟩ := by
  unfold layerIf
  split <;> simp_all

/-- Filtering a conditional trace block by tag. -/
lemma filter_layerIf (c : Prop) [Decidable c] (tag : String)
    (pts : List (ℚ × ℚ)) (t : String) :
    (layerIf c tag pts).filter (fun tr => decide (tr.tag ≠ t)) =
      layerIf (c ∧ tag ≠ t) tag pts := by
  unfold layerIf
  by_cases hc : c <;> by_cases ht : tag = t <;> simp [hc, ht, List.filter]

/-- A conditional trace block only depends on the truth of its condition. -/
lemma layerIf_congr {c d : Prop} [Decidable c] [Decidable d] (h : c ↔ d)
    (tag : String) (pts : List (ℚ × ℚ)) :
    layerIf c tag pts = layerIf d tag pts := by
  unfold layerIf
  by_cases hc : c
  · rw [if_pos hc, if_pos (h.mp hc)]
  · rw [if_neg hc, if_neg (fun hd => hc (h.mpr hd))]

/-- C9: for every slider value `p` in `[0, 57]` and every toggle set, the
figure contains a layer's trace exactly when that layer's tag is in the
active toggle set — the `new` layer additionally requires `p > 0` — and
removing one tag from the toggle set removes exactly that layer's trace
from the figure and leaves every other layer's trace unchanged. -/
theorem update_visualization_layer_toggle
    (stops demand : List (ℚ × ℚ)) (existing cands : List Fac)
    (order : List Nat) (p : Nat) (visible : List String)
    (_hp : p ≤ 57) (hnd : visible.Nodup) :
    ((∃ tr ∈ update_visualization_traces stops demand existing cands order p
        visible, tr.tag = "marta") ↔ "marta" ∈ visible) ∧
    ((∃ tr ∈ update_visualization_traces stops demand existing cands order p
        visible, tr.tag = "existing") ↔ "existing" ∈ visible) ∧
    ((∃ tr ∈ update_visualization_traces stops demand existing cands order p
        visible, tr.tag = "food_deserts") ↔ "food_deserts" ∈ visible) ∧
    ((∃ tr ∈ update_visualization_traces stops demand existing cands order p
        visible, tr.tag = "new") ↔ ("new" ∈ visible ∧ 0 < p)) ∧
    ∀ t : String,
      update_visualization_traces stops demand existing cands order p
          (visible.erase t) =
        (update_visualization_traces stops demand existing cands order p
          visible).filter (fun tr => decide (tr.tag ≠ t)) := by
  refine ⟨?_, ?_, ?_, ?_, ?_⟩
  · simp only [update_visualization_traces, List.mem_append, mem_layerIf_iff]
    constructor
    · rintro ⟨tr, ((⟨h, rfl⟩ | ⟨h, rfl⟩) | ⟨h, rfl⟩) | ⟨h, rfl⟩, htag⟩ <;>
        simp_all
    · intro h
      exact ⟨_, Or.inl (Or.inl (Or.inl ⟨h, rfl⟩)), rfl⟩
  · simp only [update_visualization_traces, List.mem_append, mem_layerIf_iff]
    constructor
    · rintro ⟨tr, ((⟨h, rfl⟩ | ⟨h, rfl⟩) | ⟨h, rfl⟩) | ⟨h, rfl⟩, htag⟩ <;>
        simp_all
    · intro h
      exact ⟨_, Or.inl (Or.inl (Or.inr ⟨h, rfl⟩)), rfl⟩
  · simp only [update_visualization_traces, List.mem_append, mem_layerIf_iff]
    constructor
    · rintro ⟨tr, ((⟨h, rfl⟩ | ⟨h, rfl⟩) | ⟨h, rfl⟩) | ⟨h, rfl⟩, htag⟩ <;>
        simp_all
    · intro h
      exact ⟨_, Or.inl (Or.inr ⟨h, rfl⟩), rfl⟩
  · simp only [update_visualization_traces, List.mem_append, mem_layerIf_iff]
    constructor
    · rintro ⟨tr, ((⟨h, rfl⟩ | ⟨h, rfl⟩) | ⟨h, rfl⟩) | ⟨h, rfl⟩, htag⟩ <;>
        simp_all
    · intro h
      exact ⟨_, Or.inr ⟨h, rfl⟩, rfl⟩
  · intro t
    have e1 : ("marta" ∈ visible.erase t) ↔
        ("marta" ∈ visible ∧ "marta" ≠ t) := by
      rw [hnd.mem_erase_iff]; tauto
    have e2 : ("existing" ∈ visible.erase t) ↔
        ("existing" ∈ visible ∧ "existing" ≠ t) := by
      rw [hnd.mem_erase_iff]; tauto
    have e3 : ("food_deserts" ∈ visible.erase t) ↔
        ("food_deserts" ∈ visible ∧ "food_deserts" ≠ t) := by
      rw [hnd.mem_erase_iff]; tauto
    have e4 : ("new" ∈ visible.erase t ∧ 0 < p) ↔
        (("new" ∈ visible ∧ 0 < p) ∧ "new" ≠ t) := by
      rw [hnd.mem_erase_iff]; tauto
    unfold update_visualization_traces
    rw [List.filter_append, List.filter_append, List.filter_append,
      filter_layerIf, filter_layerIf, filter_layerIf, filter_layerIf,
      layerIf_congr e1, layerIf_congr e2, layerIf_congr e3, layerIf_congr e4]

/-- Witness for C9 with one MARTA stop, the default toggle set and `p = 1`. -/
theorem update_visualization_layer_toggle_witness :
    (1 : Nat) ≤ 57 ∧ (["food_deserts", "existing", "new"] : List String).Nodup ∧
    (((∃ tr ∈ update_visualization_traces [(1, 2)] [] [] [] [] 1
        ["food_deserts", "existing", "new"], tr.tag = "marta") ↔
        "marta" ∈ (["food_deserts", "existing", "new"] : List String)) ∧
     ((∃ tr ∈ update_visualization_traces [(1, 2)] [] [] [] [] 1
        ["food_deserts", "existing", "new"], tr.tag = "existing") ↔
        "existing" ∈ (["food_deserts", "existing", "new"] : List String)) ∧
     ((∃ tr ∈ update_visualization_traces [(1, 2)] [] [] [] [] 1
        ["food_deserts", "existing", "new"], tr.tag = "food_deserts") ↔
        "food_deserts" ∈ (["food_deserts", "existing", "new"] : List String)) ∧
     ((∃ tr ∈ update_visualization_traces [(1, 2)] [] [] [] [] 1
        ["food_deserts", "existing", "new"], tr.tag = "new") ↔
        ("new" ∈ (["food_deserts", "existing", "new"] : List String) ∧
          (0 : Nat) < 1)) ∧
     ∀ t : String,
       update_visualization_traces [(1, 2)] [] [] [] [] 1
           ((["food_deserts", "existing", "new"] : List String).erase t) =
         (update_visualization_traces [(1, 2)] [] [] [] [] 1
           ["food_deserts", "existing", "new"]).filter
           (fun tr => decide (tr.tag ≠ t))) :=
  ⟨by norm_num, by decide,
    update_visualization_layer_toggle [(1, 2)] [] [] [] [] 1
      ["food_deserts", "existing", "new"] (by norm_num) (by decide)⟩
